import Mathlib

/-!
Verification of the vartex blockchain indexer/gateway against its
natural-language specification.

The development shallowly embeds the relevant TypeScript source files:

* `src/database/cassandra.database.ts` — the type adapter (`toLong`), the
  row projector (`makeTxImportQuery`, `transformTxKey`, `transformTag`,
  `transformTxOffsetKeys`) and `getMaxHeightBlock`;
* `src/graphql/query.graphql.ts` — `generateTransactionQuery`;
* the sync orchestrator (`startPolling`, `resolveFork`, `findMissingBlocks`,
  `getTxsInFlight`, the `DEVELOPMENT_SYNC_LENGTH` guard).

JavaScript's loosely typed values are modelled by the inductive `JsVal`
(with `JsNum` capturing number-or-NaN); JS truthiness, Rambda's `isEmpty`
and strict equality against `NaN` are modelled explicitly.  Cassandra
`Long` values are modelled as unbounded `Int` (the spec declares overflow
unsupported: heights and sizes fit a signed 64-bit integer, so wrap-around
is never exercised).  Driver externals (row streams, query results,
`TimeUuid.fromString(...).getDate()`) are modelled as explicit inputs to
the embedded functions.
-/

namespace Vartex

/-- A JavaScript number: either NaN or an (integral) numeric value. -/
inductive JsNum where
  | nan : JsNum
  | num (n : Int) : JsNum
deriving DecidableEq

/-- A JavaScript/driver value as it flows through the ingest pipeline:
`undefined`, `null`, booleans, numbers, strings, Cassandra `Long`
instances, arrays of strings, and sets of 2-tuples (tag sets). -/
inductive JsVal where
  | jUndefined : JsVal
  | jNull : JsVal
  | jBool (b : Bool) : JsVal
  | jNum (n : JsNum) : JsVal
  | jStr (s : String) : JsVal
  | jLong (n : Int) : JsVal
  | jList (l : List String) : JsVal
  | jTupleSet (l : List (String × String)) : JsVal
deriving DecidableEq

/-- JavaScript truthiness.  Note that a Cassandra `Long` instance and an
array are objects and hence always truthy — even `Long(0)` and `[]`. -/
def jsTruthy : JsVal → Bool
  | .jUndefined => false
  | .jNull => false
  | .jBool b => b
  | .jNum .nan => false
  | .jNum (.num n) => n != 0
  | .jStr s => s != ""
  | .jLong _ => true
  | .jList _ => true
  | .jTupleSet _ => true

/-- Rambda's `R.isEmpty`: true only for empty strings, arrays and plain
objects; numbers, `null`, `undefined` and class instances (e.g. `Long`)
are not "empty". -/
def rIsEmpty : JsVal → Bool
  | .jStr s => s == ""
  | .jList l => l.isEmpty
  | .jTupleSet l => l.isEmpty
  | _ => false

/-- Rambda's `R.equals`: type-strict deep equality.  It first compares
runtime types, so values of different types — in particular a JS number
and a cassandra-driver `Long` instance (an object) — are never equal;
within one type it is structural equality, which on this value universe
is exactly decidable equality. -/
def rEquals (a b : JsVal) : Bool := a == b

/-- The driver's `Long.isLong` type guard. -/
def isLong : JsVal → Bool
  | .jLong _ => true
  | _ => false

/-- The `typeof x === 'string'` test. -/
def isString : JsVal → Bool
  | .jStr _ => true
  | _ => false

/-- The string payload of a string value (only used under an
`isString` guard). -/
def strVal : JsVal → String
  | .jStr s => s
  | _ => ""

/-- Numeric value of the characters `'0'`–`'9'`. -/
def digitVal (c : Char) : Nat := c.toNat - 48

/-- Accumulate a base-10 digit list into a natural number. -/
def parseDigits (cs : List Char) : Nat :=
  cs.foldl (fun a c => a * 10 + digitVal c) 0

/-- Model of `cassandra.types.Long.fromString`: a base-10 parse with an
optional sign.  Only well-formed decimal strings are modelled (the driver
throws on other inputs, which the spec does not exercise). -/
def longFromString (s : String) : Int :=
  match s.data with
  | '-' :: rest => -(parseDigits rest : Int)
  | '+' :: rest => (parseDigits rest : Int)
  | cs => (parseDigits cs : Int)

/-- Model of `cassandra.types.Long.fromNumber`: numbers cast directly,
`true` coerces to 1, everything non-numeric coerces through NaN to 0. -/
def longFromNumber : JsVal → Int
  | .jNum (.num n) => n
  | .jBool true => 1
  | _ => 0

/-- Shallow embedding of `toLong` from `cassandra.database.ts`:

1. an existing `Long` is returned unchanged;
2. a falsy non-string (`nil`, `undefined`, `0`, `NaN`, `false`) maps to 0;
3. a string is parsed base-10, with the empty string replaced by `'0'`;
4. anything else goes through `Long.fromNumber`. -/
def toLong (anyValue : JsVal) : JsVal :=
  if isLong anyValue then anyValue
  else if !jsTruthy anyValue && !isString anyValue then .jLong 0
  else if isString anyValue then
    .jLong (longFromString (if rIsEmpty anyValue then "0" else strVal anyValue))
  else .jLong (longFromNumber anyValue)

/-- The integer carried by a `Long` value (0 on any other constructor). -/
def longOf : JsVal → Int
  | .jLong n => n
  | _ => 0

/-- The driver's `long.gt(0)` comparison. -/
def longGtZero : JsVal → Bool
  | .jLong n => decide (0 < n)
  | _ => false

/-- JavaScript strict equality `===` restricted to numbers: `NaN` is not
strictly equal to anything, including itself. -/
def jsStrictEqNum : JsNum → JsNum → Bool
  | .num a, .num b => a == b
  | _, _ => false

/-- Model of `Number.parseInt`: skip leading spaces, read an optional
sign and then a maximal run of leading digits; no digits yields NaN. -/
def parseIntJs (s : String) : JsNum :=
  let cs := s.data.dropWhile (fun c => c = ' ')
  let signAndRest : Bool × List Char :=
    match cs with
    | '-' :: rest => (true, rest)
    | '+' :: rest => (false, rest)
    | l => (false, l)
  let digits := signAndRest.2.takeWhile (fun c => c.isDigit)
  if digits.isEmpty then JsNum.nan
  else JsNum.num ((if signAndRest.1 then (-1 : Int) else 1) * (parseDigits digits : Int))

/-- Embedding of the `developmentSyncLength` constant from the sync
orchestrator: `undefined` when the `DEVELOPMENT_SYNC_LENGTH` environment
variable is unset or empty, otherwise `Number.parseInt` of it. -/
def developmentSyncLength (env : Option String) : Option JsNum :=
  match env with
  | none => none
  | some s => if s = "" then none else some (parseIntJs s)

/-- Embedding of the fatal-configuration guard
`if (developmentSyncLength === Number.NaN) { console.error(...); process.exit(1); }`:
returns whether the process exits.  The comparison is JavaScript strict
equality against `Number.NaN`. -/
def developmentSyncLengthNaNExit (env : Option String) : Bool :=
  match developmentSyncLength env with
  | none => false
  | some v => jsStrictEqNum v JsNum.nan

/-- An upstream tag: a `{name, value}` pair whose fields may be absent. -/
structure UpstreamTag where
  name : Option String
  value : Option String
deriving DecidableEq

/-- The optional `tx_offset` substructure of an upstream transaction. -/
structure TxOffsetInput where
  size : Option JsVal
  offset : Option JsVal
deriving DecidableEq

/-- An upstream transaction as consumed by the row projector.  Scalar
fields are loosely typed `JsVal`s; `data_tree`, `tags` and `tx_offset`
are `Option` to model absent properties. -/
structure TxData where
  id : JsVal
  last_tx : JsVal
  owner : JsVal
  target : JsVal
  quantity : JsVal
  reward : JsVal
  signature : JsVal
  data_root : JsVal
  data_size : JsVal
  format : JsVal
  data_tree : Option (List String)
  tags : Option (List UpstreamTag)
  tx_offset : Option TxOffsetInput
deriving DecidableEq

/-- The block fields the transaction projector reads. -/
structure BlockData where
  height : JsVal
  indep_hash : JsVal
  timestamp : JsVal
deriving DecidableEq

/-- The `transactionKeys` column list of `cassandra.database.ts`, in
source order. -/
def transactionKeys : List String :=
  ["block_height", "block_hash", "block_timestamp", "data_root", "data_size",
   "data_tree", "format", "id", "last_tx", "owner", "quantity", "reward",
   "signature", "target", "tag_count"]

/-- The `txData[key] ? (typeof txData[key] === 'string' ? txData[key] :
txData[key].toString()) : ''` pattern used for the string columns. -/
def jsToStr : JsVal → String
  | .jStr s => s
  | .jNum .nan => "NaN"
  | .jNum (.num n) => toString n
  | .jLong n => toString n
  | .jBool b => if b then "true" else "false"
  | _ => ""

/-- String-column transformation: a truthy value is kept (stringified if
not already a string), a falsy one becomes the empty string. -/
def strFieldOrEmpty (v : JsVal) : JsVal :=
  if jsTruthy v then
    match v with
    | .jStr s => .jStr s
    | w => .jStr (jsToStr w)
  else .jStr ""

/-- Shallow embedding of `transformTxKey` from `cassandra.database.ts`:
per-column normalisation of an upstream transaction, given its block. -/
def transformTxKey (key : String) (txData : TxData) (blockData : BlockData) : JsVal :=
  match key with
  | "block_timestamp" => toLong blockData.timestamp
  | "block_height" => toLong blockData.height
  | "block_hash" => blockData.indep_hash
  | "data_tree" => .jList (txData.data_tree.getD [])
  | "tag_count" =>
    .jNum (.num (match txData.tags with
      | none => 0
      | some tags => if tags.isEmpty then 0 else (tags.length : Int)))
  | "tags" =>
    match txData.tags with
    | none => .jList []
    | some tags =>
      if tags.isEmpty then .jList []
      else .jTupleSet ((tags.map (fun t => (t.name.getD "", t.value.getD ""))).dedup)
  | "data_root" => strFieldOrEmpty txData.data_root
  | "id" => strFieldOrEmpty txData.id
  | "last_tx" => strFieldOrEmpty txData.last_tx
  | "owner" => strFieldOrEmpty txData.owner
  | "signature" => strFieldOrEmpty txData.signature
  | "target" => strFieldOrEmpty txData.target
  | "data_size" => toLong txData.data_size
  | "quantity" => toLong txData.quantity
  | "reward" => toLong txData.reward
  | "format" => txData.format
  | _ => .jUndefined

/-- A `tx_tag` row as produced by `transformTag`. -/
structure TagRow where
  tag_index : Nat
  next_tag_index : Option Nat
  tx_id : JsVal
  name : String
  value : String
deriving DecidableEq

/-- Shallow embedding of `transformTag`: note `nextIndex || undefined`
means a `nextIndex` of 0 would also become `undefined` (JS falsiness). -/
def transformTag (tag : UpstreamTag) (txObj : TxData) (index : Nat)
    (nextIndex : Option Nat) : TagRow :=
  { tag_index := index
    next_tag_index :=
      match nextIndex with
      | some 0 => none
      | some n => some n
      | none => none
    tx_id := txObj.id
    name := tag.name.getD ""
    value := tag.value.getD "" }

/-- A `tx_offset` row as produced by `transformTxOffsetKeys`. -/
structure TxOffsetRow where
  tx_id : JsVal
  size : Int
  offset : Int
deriving DecidableEq

/-- JavaScript `a || b`. -/
def jsOr (a b : JsVal) : JsVal := if jsTruthy a then a else b

/-- Shallow embedding of `transformTxOffsetKeys`. -/
def transformTxOffsetKeys (txObj : TxData) : TxOffsetRow :=
  let txOffset := txObj.tx_offset.getD ⟨none, none⟩
  { tx_id := jsOr txObj.id (.jStr "")
    size := longOf (toLong (jsOr (txOffset.size.getD .jUndefined) (.jNum (.num 0))))
    offset := longOf (toLong (jsOr (txOffset.offset.getD .jUndefined) (.jNum (.num (-1))))) }

/-- One projected insert statement of `makeTxImportQuery`. -/
inductive CqlStatement where
  | blockByTxId (tx_id block_height block_hash : JsVal) : CqlStatement
  | transactionInsert (cols : List (String × JsVal)) : CqlStatement
  | txTagInsert (row : TagRow) : CqlStatement
  | txOffsetInsert (row : TxOffsetRow) : CqlStatement
deriving DecidableEq

/-- One step of the non-nil-filtering reduce in `makeTxImportQuery`: the
state is the accumulated `(key, value)` parameter list together with the
captured `dataSize` (assigned when the key is `data_size`, before the
truthiness filter). -/
def nonNilStep (txData : TxData) (blockData : BlockData)
    (acc : List (String × JsVal) × Option JsVal) (key : String) :
    List (String × JsVal) × Option JsVal :=
  let nextVal := transformTxKey key txData blockData
  ⟨if jsTruthy nextVal && !rIsEmpty nextVal then acc.1 ++ [(key, nextVal)] else acc.1,
   if key = "data_size" then some nextVal else acc.2⟩

/-- The per-column keep-or-drop function the non-nil filter computes:
`some (key, value)` for a truthy, non-empty transformed value. -/
def keepCol (txData : TxData) (blockData : BlockData) (key : String) :
    Option (String × JsVal) :=
  let v := transformTxKey key txData blockData
  if jsTruthy v && !rIsEmpty v then some (key, v) else none

/-- Shallow embedding of `makeTxImportQuery`: the `block_by_tx_id`
insert, the non-nil-filtered `transaction` insert, one `tx_tag` insert
per tag (with `next_tag_index = i + 1` except for the last tag), and a
`tx_offset` insert guarded by `dataSize && dataSize.gt(0)`. -/
def makeTxImportQuery (tx : TxData) (blockData : BlockData) : List CqlStatement :=
  let folded := transactionKeys.foldl (nonNilStep tx blockData) ([], none)
  let tags := tx.tags.getD []
  [CqlStatement.blockByTxId tx.id blockData.height blockData.indep_hash,
   CqlStatement.transactionInsert folded.1]
  ++ tags.enum.map (fun p =>
      CqlStatement.txTagInsert (transformTag p.2 tx p.1
        (if p.1 + 1 < tags.length then some (p.1 + 1) else none)))
  ++ (match folded.2 with
      | some d =>
        if jsTruthy d && longGtZero d then
          [CqlStatement.txOffsetInsert (transformTxOffsetKeys tx)]
        else []
      | none => [])

/-- The `tx_tag` rows bound by a projected statement batch. -/
def txTagRows (l : List CqlStatement) : List TagRow :=
  l.filterMap (fun s =>
    match s with
    | .txTagInsert r => some r
    | _ => none)

/-- The `tx_offset` rows bound by a projected statement batch. -/
def txOffsetRows (l : List CqlStatement) : List TxOffsetRow :=
  l.filterMap (fun s =>
    match s with
    | .txOffsetInsert r => some r
    | _ => none)

/-- The column/value pairs of the `transaction` insert in a projected
statement batch. -/
def txInsertCols (l : List CqlStatement) : List (String × JsVal) :=
  (l.filterMap (fun s =>
    match s with
    | .transactionInsert cols => some cols
    | _ => none)).flatten

/-- A sample block for concrete evaluations. -/
def sampleBd : BlockData :=
  { height := .jNum (.num 100)
    indep_hash := .jStr "blockhash100"
    timestamp := .jNum (.num 1600000000) }

/-- A sample transaction with an empty tag list and zero data size. -/
def sampleTx0 : TxData :=
  { id := .jStr "tx0"
    last_tx := .jStr ""
    owner := .jStr "owner0"
    target := .jStr ""
    quantity := .jStr "0"
    reward := .jStr "10"
    signature := .jStr "sig0"
    data_root := .jStr ""
    data_size := .jNum (.num 0)
    format := .jNum (.num 2)
    data_tree := none
    tags := some []
    tx_offset := none }

/-- A sample transaction with two tags and a positive data size. -/
def sampleTx2 : TxData :=
  { id := .jStr "tx2"
    last_tx := .jStr "l2"
    owner := .jStr "owner2"
    target := .jStr "t2"
    quantity := .jStr "1"
    reward := .jStr "10"
    signature := .jStr "sig2"
    data_root := .jStr "root2"
    data_size := .jStr "123"
    format := .jNum (.num 2)
    data_tree := none
    tags := some [⟨some "App", some "X"⟩, ⟨some "Type", some "tx"⟩]
    tx_offset := some ⟨some (.jStr "123"), some (.jStr "900")⟩ }

/-- A row of the max-height query in `getMaxHeightBlock`
(`SELECT height,indep_hash ... limit 1`). -/
structure GqlRow where
  height : Int
  indep_hash : String
deriving DecidableEq

/-- Shallow embedding of `getMaxHeightBlock`: given the rows the store
query resolved with, return the first row's `(indep_hash, height)`, or
the sentinel `('', toLong(-1))` when there is no row. -/
def getMaxHeightBlock (rows : List GqlRow) : String × JsVal :=
  match rows.head? with
  | some row => (row.indep_hash, .jLong row.height)
  | none => ("", toLong (.jNum (.num (-1))))

/-- The fields of `getNodeInfo`'s result that the polling loop reads. -/
structure NodeInfo where
  current : String
  height : Nat
deriving DecidableEq

/-- The fields of a fetched remote block that the polling loop reads. -/
structure BlockType where
  indep_hash : String
  previous_block : String
  height : Nat
deriving DecidableEq

/-- The action one iteration of the polling loop dispatches. -/
inductive PollAction where
  | sleepRetry : PollAction
  | importTip (height : Nat) : PollAction
  | forkRecovery (blk : BlockType) : PollAction
deriving DecidableEq

/-- Shallow embedding of one iteration of `startPolling`.  The inputs
are the `isPaused` flag's current value and the results of the awaited
externals: `getNodeInfo`, the `getMaxHeightBlock` rows, and the two
`fetchBlockByHash` calls.  The body is a faithful transcription of the
branch structure of `startPolling`; note that it never consults
`isPaused` — the source contains no read of that flag in the polling
loop. -/
def startPollingStep (isPaused : Bool) (nodeInfo : Option NodeInfo)
    (maxHeightRows : List GqlRow)
    (currentRemoteBlock previousBlock : BlockType) : PollAction :=
  match nodeInfo with
  | none => .sleepRetry
  | some ni =>
    let topHash := (getMaxHeightBlock maxHeightRows).1
    if ni.current = topHash then .sleepRetry
    else if previousBlock.indep_hash ≠ topHash then .forkRecovery currentRemoteBlock
    else .importTip ni.height

/-- The `numberOr0` helper of the worker-pool module:
`Number.isNaN(n) ? 0 : n`. -/
def numberOr0 : JsNum → JsNum
  | .nan => .num 0
  | .num n => .num n

/-- JavaScript `+` on numbers (NaN-propagating). -/
def jsAddNum : JsNum → JsNum → JsNum
  | .num a, .num b => .num (a + b)
  | _, _ => .nan

/-- Shallow embedding of `getTxsInFlight`:
`Object.values(txInFlight).reduce((a, b) => numberOr0(a) + numberOr0(b))`.
JavaScript's `reduce` without an initial value throws a `TypeError` on an
empty array (modelled as `none`) and returns a singleton's sole element
without ever calling the reducer. -/
def getTxsInFlight (values : List JsNum) : Option JsNum :=
  match values with
  | [] => none
  | x :: xs => some (xs.foldl (fun a b => jsAddNum (numberOr0 a) (numberOr0 b)) x)

/-- The numeric value of a `JsNum` with NaN collapsed to 0 (used only to
state the amended summation property). -/
def jsNumOr0Int : JsNum → Int
  | .nan => 0
  | .num n => n

/-- An entry of the height-indexed object `findMissingBlocks` builds from
the hash list (`{height, hash}`). -/
structure UnsyncedBlock where
  height : Nat
  hash : String
deriving DecidableEq

/-- A streamed row of the `block` table as read by `findMissingBlocks`
(`SELECT height, indep_hash, ...`).  The `height` column is `bigint`
and the client sets no `encoding` options, so the driver decodes it as
a `Long` instance (consistent with the rest of the code calling
`row.height.toString()`); we carry the `Long`'s integer value. -/
structure BlockRow where
  height : Int
  indep_hash : String
deriving DecidableEq

/-- The initial height-indexed object: one `{height, hash}` entry per
hash-list position (`hashList.reduce(...)` keyed by height). -/
def initHashListObject (hashList : List String) : List UnsyncedBlock :=
  hashList.enum.map (fun p => ⟨p.1, p.2⟩)

/-- Shallow embedding of the per-row callback of `findMissingBlocks`.
The lookup `hashListObject[row.height]` stringifies the `Long` key, so
it finds the entry whose numeric index prints the same (modelled as the
index's integer value equalling the `Long`'s value).  The guard then
compares hash and height with rambda's type-strict `R.equals`; the
entry's `height` is a plain JS number (the `hashList.reduce` index)
while `row.height` is a `Long` instance, so that conjunct is modelled
as `rEquals` of a `jNum` against a `jLong`. -/
def processRow (m : List UnsyncedBlock) (row : BlockRow) : List UnsyncedBlock :=
  match m.find? (fun e => (e.height : Int) == row.height) with
  | some matchingRow =>
    if rEquals (.jStr matchingRow.hash) (.jStr row.indep_hash)
        && rEquals (.jNum (.num (matchingRow.height : Int))) (.jLong row.height) then
      m.filter (fun e => (e.height : Int) != row.height)
    else m
  | none => m

/-- Model of `R.sortBy(R.prop('height'))`: a stable ascending sort by
height. -/
def sortByHeight (l : List UnsyncedBlock) : List UnsyncedBlock :=
  List.insertionSort (fun a b => a.height ≤ b.height) l

instance : DecidableRel (fun a b : UnsyncedBlock => a.height ≤ b.height) :=
  fun a b => Nat.decLe a.height b.height

/-- Shallow embedding of `findMissingBlocks`' successful path: stream all
local block rows over the initial object, then sort the surviving
entries ascending by height. -/
def findMissingBlocks (hashList : List String) (rows : List BlockRow) :
    List UnsyncedBlock :=
  sortByHeight (rows.foldl processRow (initHashListObject hashList))

/-- The promise `findMissingBlocks` returns: a streaming error rejects
with the driver error's string, otherwise the missing set resolves. -/
def findMissingBlocksP (hashList : List String)
    (streamResult : Except String (List BlockRow)) :
    Except String (List UnsyncedBlock) :=
  match streamResult with
  | .error e => .error e
  | .ok rows => .ok (findMissingBlocks hashList rows)

/-- The query parameters of `generateTransactionQuery` that shape its
WHERE clause.  `sinceMs` models `TimeUuid.fromString(params.since)
.getDate().valueOf()` — the millisecond timestamp carried by the
time-based UUID (the UUID parsing itself is a driver external). -/
structure TxQueryParams where
  id : Option String
  ids : Option (List String)
  sinceMs : Option Nat
  status : Option String
  «to» : Option String
  minHeight : Option Int
  maxHeight : Option Int
deriving DecidableEq

/-- A parameterized WHERE term: clause text plus bound values. -/
structure WhereTerm where
  clause : String
  args : List JsVal
deriving DecidableEq

/-- `R.range(0, n).map(() => '?').join(', ')`. -/
def placeHolders (n : Nat) : String :=
  String.intercalate ", " (List.replicate n "?")

/-- JavaScript truthiness of an optional string property. -/
def optStrTruthy : Option String → Bool
  | some s => s != ""
  | none => false

/-- Shallow embedding of the WHERE clause built by
`generateTransactionQuery`: the `id`/`ids` alternative, the `since`
timestamp bound converted to unix seconds, the `status='confirmed'`
height floor, the exact `target`, and the unconditional height range. -/
def generateTransactionQuery (params : TxQueryParams) : List WhereTerm :=
  (if optStrTruthy params.id then [⟨"id = ?", [.jStr (params.id.getD "")]⟩]
   else
     match params.ids with
     | some ids => [⟨"id IN ( " ++ placeHolders ids.length ++ " )", ids.map .jStr⟩]
     | none => [])
  ++ (match params.sinceMs with
      | some ms => [⟨"block_timestamp < ?", [.jLong ((ms / 1000 : Nat) : Int)]⟩]
      | none => [])
  ++ (if params.status = some "confirmed" then [⟨"block_height >= ?", [.jLong 0]⟩] else [])
  ++ (if optStrTruthy params.«to» then [⟨"target = ?", [.jStr (params.«to».getD "")]⟩] else [])
  ++ [⟨"block_height >=", [match params.minHeight with
        | some n => .jNum (.num n)
        | none => .jUndefined]⟩,
      ⟨"block_height <=", [match params.maxHeight with
        | some n => .jNum (.num n)
        | none => .jUndefined]⟩]

/-- Concrete query parameters: only `since` is set, as a time-UUID whose
date is 2024-01-01T00:00:00Z (1704067200000 ms). -/
def sinceParams2024 : TxQueryParams :=
  { id := none
    ids := none
    sinceMs := some 1704067200000
    status := none
    «to» := none
    minHeight := none
    maxHeight := none }

end Vartex

namespace Vartex

/-- C4: `toLong` returns 0 on falsy non-strings (nil, undefined, 0, NaN,
false) and on the empty string; parses non-empty strings base-10; casts
numbers directly; and returns an existing `Long` unchanged. -/
theorem toLong_rules :
    (∀ x : JsVal, jsTruthy x = false → isString x = false → toLong x = .jLong 0) ∧
    (toLong (.jStr "") = .jLong 0) ∧
    (∀ s : String, s ≠ "" → toLong (.jStr s) = .jLong (longFromString s)) ∧
    (∀ n : Int, toLong (.jNum (.num n)) = .jLong n) ∧
    (∀ n : Int, toLong (.jLong n) = .jLong n) := by
  refine ⟨?_, by decide, ?_, ?_, fun n => rfl⟩
  · intro x hfalsy hstr
    cases x <;> simp_all [toLong, isLong, jsTruthy, isString]
  · intro s hs
    simp [toLong, isLong, jsTruthy, isString, rIsEmpty, strVal, hs]
  · intro n
    by_cases hn : n = 0
    · subst hn; decide
    · simp [toLong, isLong, jsTruthy, isString, longFromNumber, hn]

/-- Witness for C4: concrete instances of the falsy-non-string rule and
the non-empty-string rule. -/
theorem toLong_rules_witness :
    toLong .jNull = .jLong 0 ∧ toLong (.jStr "42") = .jLong (longFromString "42") :=
  ⟨toLong_rules.1 .jNull (by decide) (by decide), toLong_rules.2.2.1 "42" (by decide)⟩

/-- C2: the fatal-configuration guard never fires.  Even when
`DEVELOPMENT_SYNC_LENGTH` parses to NaN the process does not exit,
because `developmentSyncLength === Number.NaN` is strict equality against
NaN, which is false for every value (NaN is not `===` to itself). -/
theorem developmentSyncLength_no_exit :
    parseIntJs "not-a-number" = JsNum.nan ∧
    developmentSyncLengthNaNExit (some "not-a-number") = false ∧
    (∀ env : Option String, developmentSyncLengthNaNExit env = false) := by
  refine ⟨by decide, by decide, ?_⟩
  intro env
  unfold developmentSyncLengthNaNExit
  cases h : developmentSyncLength env with
  | none => rfl
  | some v => cases v <;> rfl

/-- The non-nil reduce of `makeTxImportQuery` computes, in its first
component, the `filterMap` of the keep-or-drop function over the keys. -/
theorem foldl_nonNilStep_fst (tx : TxData) (bd : BlockData) :
    ∀ (l : List String) (acc : List (String × JsVal)) (ds : Option JsVal),
      (l.foldl (nonNilStep tx bd) (acc, ds)).1 = acc ++ l.filterMap (keepCol tx bd) := by
  intro l
  induction l with
  | nil => intro acc ds; simp
  | cons k ks ih =>
    intro acc ds
    rw [List.foldl_cons]
    have hstep : nonNilStep tx bd (acc, ds) k =
        ((if jsTruthy (transformTxKey k tx bd) && !rIsEmpty (transformTxKey k tx bd)
            then acc ++ [(k, transformTxKey k tx bd)] else acc),
          (if k = "data_size" then some (transformTxKey k tx bd) else ds)) := rfl
    rw [hstep, ih]
    by_cases h : (jsTruthy (transformTxKey k tx bd) && !rIsEmpty (transformTxKey k tx bd)) = true
    · have hk : keepCol tx bd k = some (k, transformTxKey k tx bd) := by
        simp [keepCol, h]
      simp [h, List.filterMap_cons, hk]
    · have hk : keepCol tx bd k = none := by
        simp only [keepCol]
        rw [if_neg h]
      simp [h, List.filterMap_cons, hk]

/-- The non-nil reduce captures `dataSize = toLong tx.data_size` in its
second component. -/
theorem capturedDataSize_eq (tx : TxData) (bd : BlockData) :
    (transactionKeys.foldl (nonNilStep tx bd) ([], none)).2 = some (toLong tx.data_size) := rfl

/-- `toLong` always produces a `Long` value. -/
theorem toLong_shape (x : JsVal) : ∃ n : Int, toLong x = .jLong n := by
  unfold toLong
  split
  · next h => cases x <;> simp [isLong] at h ⊢
  · split
    · exact ⟨0, rfl⟩
    · split
      · exact ⟨_, rfl⟩
      · exact ⟨_, rfl⟩

/-- Extracting tag rows from a list of tag-insert statements recovers
the underlying rows. -/
theorem filterMap_txTag_of_tagMap {α : Type} (G : α → TagRow) (l : List α) :
    ((l.map (fun a => CqlStatement.txTagInsert (G a))).filterMap fun s =>
      match s with
      | CqlStatement.txTagInsert r => some r
      | _ => none) = l.map G := by
  induction l with
  | nil => rfl
  | cons a t ih => simp [ih]

/-- Tag-insert statements contribute no `tx_offset` rows. -/
theorem filterMap_txOffset_of_tagMap {α : Type} (G : α → TagRow) (l : List α) :
    ((l.map (fun a => CqlStatement.txTagInsert (G a))).filterMap fun s =>
      match s with
      | CqlStatement.txOffsetInsert r => some r
      | _ => none) = [] := by
  induction l with
  | nil => rfl
  | cons a t ih => simp [ih]

/-- Tag-insert statements contribute no `transaction` insert columns. -/
theorem filterMap_txCols_of_tagMap {α : Type} (G : α → TagRow) (l : List α) :
    ((l.map (fun a => CqlStatement.txTagInsert (G a))).filterMap fun s =>
      match s with
      | CqlStatement.transactionInsert cols => some cols
      | _ => none) = [] := by
  induction l with
  | nil => rfl
  | cons a t ih => simp [ih]

/-- The tag rows of a projected transaction are exactly the transformed
tags, in order, with the forward link computed from the position. -/
theorem txTagRows_mk (tx : TxData) (bd : BlockData) :
    txTagRows (makeTxImportQuery tx bd) =
      (tx.tags.getD []).enum.map (fun p =>
        transformTag p.2 tx p.1
          (if p.1 + 1 < (tx.tags.getD []).length then some (p.1 + 1) else none)) := by
  unfold txTagRows
  simp only [makeTxImportQuery]
  rw [capturedDataSize_eq, List.filterMap_append, List.filterMap_append,
    filterMap_txTag_of_tagMap]
  by_cases h : (jsTruthy (toLong tx.data_size) && longGtZero (toLong tx.data_size)) = true
  · simp [h]
  · simp [h]

/-- The `tx_offset` part of a projected transaction in closed form. -/
theorem txOffsetRows_mk (tx : TxData) (bd : BlockData) :
    txOffsetRows (makeTxImportQuery tx bd) =
      if 0 < longOf (toLong tx.data_size) then [transformTxOffsetKeys tx] else [] := by
  unfold txOffsetRows
  simp only [makeTxImportQuery]
  rw [capturedDataSize_eq, List.filterMap_append, List.filterMap_append,
    filterMap_txOffset_of_tagMap]
  obtain ⟨n, hn⟩ := toLong_shape tx.data_size
  rw [hn]
  by_cases h : 0 < n
  · simp [jsTruthy, longGtZero, longOf, h]
  · simp [jsTruthy, longGtZero, longOf, h]

/-- The `transaction` insert columns of a projected transaction are the
non-nil-filtered transformed columns. -/
theorem txInsertCols_mk (tx : TxData) (bd : BlockData) :
    txInsertCols (makeTxImportQuery tx bd) = transactionKeys.filterMap (keepCol tx bd) := by
  unfold txInsertCols
  simp only [makeTxImportQuery]
  rw [capturedDataSize_eq, List.filterMap_append, List.filterMap_append,
    filterMap_txCols_of_tagMap, foldl_nonNilStep_fst]
  by_cases h : (jsTruthy (toLong tx.data_size) && longGtZero (toLong tx.data_size)) = true
  · simp [h]
  · simp [h]

/-- A kept column always records the key it came from. -/
theorem keepCol_eq_some_fst {tx : TxData} {bd : BlockData} {key : String}
    {p : String × JsVal} (h : keepCol tx bd key = some p) : p.1 = key := by
  simp only [keepCol] at h
  split at h
  · cases h; rfl
  · cases h

/-- C5: a `tx_offset` insert is produced iff the transaction's
`data_size` coerces (via `toLong`) to a value strictly greater than 0;
in particular `data_size = 0` yields no `tx_offset` statement. -/
theorem txOffset_iff_dataSize (tx : TxData) (bd : BlockData) :
    txOffsetRows (makeTxImportQuery tx bd)
        = (if 0 < longOf (toLong tx.data_size) then [transformTxOffsetKeys tx] else []) ∧
    (txOffsetRows (makeTxImportQuery tx bd) ≠ [] ↔ 0 < longOf (toLong tx.data_size)) := by
  refine ⟨txOffsetRows_mk tx bd, ?_⟩
  rw [txOffsetRows_mk tx bd]
  by_cases h : 0 < longOf (toLong tx.data_size) <;> simp [h]

/-- C3 counterexample: for a transaction with an empty tag list no
`tx_tag` statements are produced, but the `transaction` insert does not
carry a `tag_count` column at all — the falsy 0 is dropped by the
non-nil filter, so the insert does not set `tag_count = 0`. -/
theorem tagCount_zero_counterexample :
    txTagRows (makeTxImportQuery sampleTx0 sampleBd) = [] ∧
    ("tag_count", JsVal.jNum (JsNum.num 0)) ∉ txInsertCols (makeTxImportQuery sampleTx0 sampleBd) := by
  decide

/-- C3 (amended): a transaction with k tags produces exactly k `tx_tag`
inserts with `tag_index` 0..k-1; for k ≥ 1 the `transaction` insert sets
`tag_count = k`; for k = 0 the `tag_count` column is omitted entirely
(not set to 0). -/
theorem makeTxImportQuery_tag_spec (tx : TxData) (bd : BlockData) :
    ((txTagRows (makeTxImportQuery tx bd)).map TagRow.tag_index
        = List.range (tx.tags.getD []).length) ∧
    ((tx.tags.getD []).length ≠ 0 →
      ("tag_count", JsVal.jNum (JsNum.num ((tx.tags.getD []).length : Int)))
        ∈ txInsertCols (makeTxImportQuery tx bd)) ∧
    ((tx.tags.getD []).length = 0 →
      ∀ v : JsVal, ("tag_count", v) ∉ txInsertCols (makeTxImportQuery tx bd)) := by
  refine ⟨?_, ?_, ?_⟩
  · rw [txTagRows_mk tx bd, List.map_map]
    have : (TagRow.tag_index ∘ fun p : Nat × UpstreamTag =>
        transformTag p.2 tx p.1
          (if p.1 + 1 < (tx.tags.getD []).length then some (p.1 + 1) else none))
        = Prod.fst := rfl
    rw [this, List.enum_map_fst]
  · intro hk
    rw [txInsertCols_mk tx bd]
    refine List.mem_filterMap.mpr ⟨"tag_count", by simp [transactionKeys], ?_⟩
    have hval : transformTxKey "tag_count" tx bd
        = .jNum (.num ((tx.tags.getD []).length : Int)) := by
      cases htags : tx.tags with
      | none => simp [htags] at hk
      | some ts =>
        have : ¬ts.isEmpty := by
          simp only [htags, Option.getD_some] at hk
          simp [List.isEmpty_iff, ← List.length_eq_zero, hk]
        simp [transformTxKey, htags, this]
    have hcast : ((tx.tags.getD []).length : Int) ≠ 0 := by
      exact_mod_cast hk
    simp [keepCol, hval, jsTruthy, rIsEmpty, hcast]
  · intro hk v hv
    rw [txInsertCols_mk tx bd] at hv
    obtain ⟨key, hmem, heq⟩ := List.mem_filterMap.mp hv
    have hkey : key = "tag_count" := (keepCol_eq_some_fst heq).symm
    subst hkey
    have hval : transformTxKey "tag_count" tx bd = .jNum (.num 0) := by
      cases htags : tx.tags with
      | none => simp [transformTxKey, htags]
      | some ts =>
        have : ts.isEmpty := by
          simp only [htags, Option.getD_some] at hk
          simp [List.isEmpty_iff, ← List.length_eq_zero, hk]
        simp [transformTxKey, htags, this]
    simp [keepCol, hval, jsTruthy] at heq

/-- Witness for C3 (amended): a transaction with 2 tags binds
`tag_count = 2` on its `transaction` insert. -/
theorem makeTxImportQuery_tag_spec_witness :
    ("tag_count", JsVal.jNum (JsNum.num 2))
      ∈ txInsertCols (makeTxImportQuery sampleTx2 sampleBd) :=
  (makeTxImportQuery_tag_spec sampleTx2 sampleBd).2.1 (by decide)

/-- C6: for a transaction with k tags, the i-th `tx_tag` insert binds
`tag_index = i` and `next_tag_index = i + 1`, except the last one
(i = k - 1), whose `next_tag_index` is absent. -/
theorem txTag_linked_indices (tx : TxData) (bd : BlockData) (i : Nat)
    (h : i < (tx.tags.getD []).length) :
    ∃ t : TagRow, (txTagRows (makeTxImportQuery tx bd))[i]? = some t ∧
      t.tag_index = i ∧
      t.next_tag_index
        = if i + 1 < (tx.tags.getD []).length then some (i + 1) else none := by
  rw [txTagRows_mk tx bd, List.getElem?_map, List.getElem?_enum,
    List.getElem?_eq_getElem h]
  refine ⟨_, rfl, rfl, ?_⟩
  by_cases hlt : i + 1 < (tx.tags.getD []).length
  · simp [transformTag, hlt]
  · simp [transformTag, hlt]

/-- Witness for C6: in the two-tag sample, tag 0 links forward to tag 1. -/
theorem txTag_linked_indices_witness :
    ∃ t : TagRow, (txTagRows (makeTxImportQuery sampleTx2 sampleBd))[0]? = some t ∧
      t.tag_index = 0 ∧
      t.next_tag_index
        = if 0 + 1 < (sampleTx2.tags.getD []).length then some (0 + 1) else none :=
  txTag_linked_indices sampleTx2 sampleBd 0 (by decide)

/-- C7: the deletion guard of `findMissingBlocks` never fires.  Rambda's
type-strict `R.equals` compares the JS number `matchingRow.height` with
the driver `Long` `row.height`; a number and an object are never equal,
so the height conjunct is false for every streamed row, no entry is ever
deleted, and the function returns the entire hash list (sorted) no
matter what the local store contains.  Concretely, a store that already
holds block 0 under the listed hash still reports it missing.  The
error path does reject with the driver error's string as claimed. -/
theorem findMissingBlocks_never_deletes :
    (∀ (m : List UnsyncedBlock) (row : BlockRow), processRow m row = m) ∧
    (∀ (hl : List String) (rows : List BlockRow),
      findMissingBlocks hl rows = sortByHeight (initHashListObject hl)) ∧
    findMissingBlocks ["h0"] [⟨0, "h0"⟩] = [⟨0, "h0"⟩] ∧
    (∀ (hl : List String) (err : String),
      findMissingBlocksP hl (Except.error err) = Except.error err) := by
  have hstep : ∀ (m : List UnsyncedBlock) (row : BlockRow), processRow m row = m := by
    intro m row
    unfold processRow
    cases hf : m.find? (fun e => (e.height : Int) == row.height) with
    | none => rfl
    | some q =>
      dsimp only
      rw [if_neg]
      simp [rEquals]
  have hfold : ∀ (rows : List BlockRow) (m : List UnsyncedBlock),
      rows.foldl processRow m = m := by
    intro rows
    induction rows with
    | nil => intro m; rfl
    | cons r rs ih => intro m; rw [List.foldl_cons, hstep m r, ih]
  refine ⟨hstep, ?_, by decide, fun hl err => rfl⟩
  intro hl rows
  unfold findMissingBlocks
  rw [hfold]

/-- Once the accumulator is numeric, the reduce adds the NaN-collapsed
values. -/
theorem foldl_jsAdd_num (rest : List JsNum) :
    ∀ n : Int, rest.foldl (fun a b => jsAddNum (numberOr0 a) (numberOr0 b)) (.num n)
      = .num (rest.foldl (fun a v => a + jsNumOr0Int v) n) := by
  induction rest with
  | nil => intro n; rfl
  | cons x xs ih =>
    intro n
    rw [List.foldl_cons, List.foldl_cons]
    have hstep : jsAddNum (numberOr0 (.num n)) (numberOr0 x)
        = .num (n + jsNumOr0Int x) := by cases x <;> rfl
    rw [hstep, ih]

/-- C9 counterexample: `getTxsInFlight` uses `reduce` without an initial
value, so it throws on an empty map (no sum is returned) and returns a
sole NaN entry unchanged instead of treating it as 0. -/
theorem getTxsInFlight_counterexample :
    getTxsInFlight [] = none ∧
    getTxsInFlight [JsNum.nan] = some JsNum.nan ∧
    JsNum.nan ≠ JsNum.num 0 := by decide

/-- C9 (amended): with two or more entries `getTxsInFlight` returns the
sum of the values with NaN treated as 0; a singleton map returns its
sole value unmodified (NaN included); the empty map throws (`none`). -/
theorem getTxsInFlight_spec (vs : List JsNum) :
    (vs = [] → getTxsInFlight vs = none) ∧
    (∀ x : JsNum, vs = [x] → getTxsInFlight vs = some x) ∧
    (2 ≤ vs.length →
      getTxsInFlight vs
        = some (JsNum.num (vs.foldl (fun a v => a + jsNumOr0Int v) 0))) := by
  refine ⟨?_, ?_, ?_⟩
  · rintro rfl; rfl
  · rintro x rfl; rfl
  · intro hlen
    match vs, hlen with
    | x :: y :: rest, _ =>
      have hstep : jsAddNum (numberOr0 x) (numberOr0 y)
          = JsNum.num (jsNumOr0Int x + jsNumOr0Int y) := by
        cases x <;> cases y <;> rfl
      show some ((y :: rest).foldl (fun a b => jsAddNum (numberOr0 a) (numberOr0 b)) x)
        = _
      rw [List.foldl_cons, hstep, foldl_jsAdd_num]
      congr 1
      rw [List.foldl_cons, List.foldl_cons, zero_add]

/-- Witness for C9 (amended): a singleton returns its sole value, and a
3-entry map containing a NaN sums the rest. -/
theorem getTxsInFlight_spec_witness :
    getTxsInFlight [JsNum.num 3] = some (JsNum.num 3) ∧
    getTxsInFlight [JsNum.num 3, JsNum.nan, JsNum.num 4] = some (JsNum.num 7) :=
  ⟨(getTxsInFlight_spec [JsNum.num 3]).2.1 (JsNum.num 3) rfl,
   (getTxsInFlight_spec [JsNum.num 3, JsNum.nan, JsNum.num 4]).2.2 (by decide)⟩

/-- C10: when the max-height query returns no rows, `getMaxHeightBlock`
returns the sentinel `('', Long(-1))` rather than failing; otherwise it
returns the first row's `(indep_hash, height)`. -/
theorem getMaxHeightBlock_spec (r : GqlRow) (rest : List GqlRow) :
    getMaxHeightBlock [] = ("", JsVal.jLong (-1)) ∧
    getMaxHeightBlock (r :: rest) = (r.indep_hash, JsVal.jLong r.height) :=
  ⟨rfl, rfl⟩

/-- C1: the polling loop is not gated on `isPaused`.  One polling
iteration computes the same action whether or not fork recovery is in
progress, and in particular, with `isPaused = true`, a new remote tip
whose parent matches the local top still dispatches
`workerPool.single.importBlock` — `startPolling` contains no read of the
flag that `resolveFork` sets. -/
theorem startPolling_not_gated_on_pause :
    (∀ (nodeInfo : Option NodeInfo) (rows : List GqlRow) (c pb : BlockType),
      startPollingStep true nodeInfo rows c pb
        = startPollingStep false nodeInfo rows c pb) ∧
    startPollingStep true (some ⟨"hNew", 10⟩) [⟨9, "hTop"⟩]
        ⟨"hNew", "hTop", 10⟩ ⟨"hTop", "hPrev", 9⟩ = PollAction.importTip 10 :=
  ⟨fun _ _ _ _ => rfl, by decide⟩

/-- C8: with a `since` parameter present, `generateTransactionQuery`
emits a WHERE term `block_timestamp < ?` bound to the UUID's date in
unix seconds (its milliseconds divided by 1000, floored). -/
theorem since_term_emitted (params : TxQueryParams) (ms : Nat)
    (h : params.sinceMs = some ms) :
    (⟨"block_timestamp < ?", [.jLong ((ms / 1000 : Nat) : Int)]⟩ : WhereTerm)
      ∈ generateTransactionQuery params := by
  unfold generateTransactionQuery
  rw [h]
  simp [List.mem_append]

/-- Witness for C8: a time-UUID whose date is 2024-01-01T00:00:00Z
(1704067200000 ms) yields `block_timestamp < 1704067200`. -/
theorem since_term_emitted_witness :
    (⟨"block_timestamp < ?", [.jLong 1704067200]⟩ : WhereTerm)
      ∈ generateTransactionQuery sinceParams2024 :=
  since_term_emitted sinceParams2024 1704067200000 rfl

end Vartex
